import Mathlib

/-!
Verification of the Milk-Life shelf-life monitoring repository.

The repository's visible source is the React presentation layer
(`Dashboard` in part_000, `ProductDetail.jsx`, `App.js`); the backend
evaluator and simulator described by the specification are not present
under `src/`, so those components are modelled from the specification
text (section 4) and marked as such below.  The frontend helpers
(`handleAddProduct`, `getStatusColor`, `getStatusGradient`) are embedded
directly from the JavaScript source.

All real-valued quantities (timestamps in seconds, temperatures in °C,
humidities in %RH, fractions, percentages) are modelled as rationals.
-/

namespace MilkLife

/-- Status bucket of a product, from the spec data model
(`status` derived enum: fresh | good | warning | expired). -/
inductive Status where
  | fresh
  | good
  | warning
  | expired
  deriving DecidableEq, Repr

/-- Modelled from the spec: **ProductType / decay profile** reference data
(section 3 / glossary) — nominal `shelf_life_days`, ideal temperature
range `[tLo, tHi]`, ideal humidity range `[hLo, hHi]`.  The backend code
holding this is not under `src/`. -/
structure DecayProfile where
  shelfLifeDays : ℚ
  tLo : ℚ
  tHi : ℚ
  hLo : ℚ
  hHi : ℚ
  deriving DecidableEq, Repr

/-- Modelled from the spec: **SensorReading** (section 3) — immutable
timestamped temperature/humidity observation owned by a product. -/
structure SensorReading where
  rid : Nat
  productId : Nat
  temperature : ℚ
  humidity : ℚ
  timestamp : ℚ
  deriving DecidableEq, Repr

/-- Modelled from the spec: **Product** (section 3), with the derived /
denormalized fields (`current_temperature`, `current_humidity`,
`shelf_life_percentage`, `status`) and the owned, append-only reading
history. -/
structure Product where
  pid : Nat
  name : String
  productType : String
  batchNumber : String
  quantity : ℚ
  unit : String
  addedDate : ℚ
  readings : List SensorReading
  currentTemperature : Option ℚ
  currentHumidity : Option ℚ
  shelfLifePercentage : ℚ
  status : Status
  deriving DecidableEq, Repr

/-- Seconds in a day, the spec's `86400s` conversion factor. -/
def secondsPerDay : ℚ := 86400

/-- Modelled from the spec: penalty configuration constant — "each degree
outside range adds a fixed percentage-points-per-day penalty; design
choice, but must be monotonic in deviation magnitude and zero when
in-range" (section 4.1 step 2).  Chosen as 1/10 per degree. -/
def penaltyPerDegree : ℚ := 1 / 10

/-- Modelled from the spec: penalty configuration constant for humidity,
symmetric to `penaltyPerDegree` (design choice, 1/10 per %RH point). -/
def penaltyPerHumidityPoint : ℚ := 1 / 10

/-- Magnitude of deviation of a value from the ideal range `[lo, hi]`:
zero inside the range, distance to the nearer bound outside. -/
def deviation (x lo hi : ℚ) : ℚ := max 0 (lo - x) + max 0 (x - hi)

/-- Modelled from the spec: condition penalty factor from the latest
reading (section 4.1 step 2) — zero when no reading or in-range,
proportional to the deviation magnitudes otherwise. -/
def totalPenalty (prof : DecayProfile) (latest : Option SensorReading) : ℚ :=
  match latest with
  | none => 0
  | some r =>
      penaltyPerDegree * deviation r.temperature prof.tLo prof.tHi
        + penaltyPerHumidityPoint * deviation r.humidity prof.hLo prof.hHi

/-- Modelled from the spec: `elapsed_fraction = (now - added_date) /
(shelf_life_days * 86400s)`, clamped to `[0, +∞)` (section 4.1 step 1). -/
def elapsedFraction (added now days : ℚ) : ℚ :=
  max 0 ((now - added) / (days * secondsPerDay))

/-- Modelled from the spec: `effective_fraction = elapsed_fraction *
(1 + total_penalty)`, clamped to `[0, 1]` before converting to percentage
(section 4.1 step 3). -/
def effectiveFraction (ef pen : ℚ) : ℚ :=
  min 1 (max 0 (ef * (1 + pen)))

/-- Modelled from the spec: `shelf_life_percentage = max(0, 100 *
(1 - effective_fraction))` (section 4.1 step 3). -/
def percentageOf (eff : ℚ) : ℚ := max 0 (100 * (1 - eff))

/-- Modelled from the spec: status classification by percentage
thresholds, ordered and non-overlapping — `>= 70` fresh, `[40, 70)` good,
`(0, 40)` warning, `<= 0` expired (section 4.1 step 4). -/
def classifyStatus (p : ℚ) : Status :=
  if 70 ≤ p then .fresh
  else if 40 ≤ p then .good
  else if 0 < p then .warning
  else .expired

/-- Modelled from the spec: the evaluator's error taxonomy (sections 4.1
and 7): `InvalidProductType`, `InvalidTimestamp`. -/
inductive EvalError where
  | invalidProductType
  | invalidTimestamp
  deriving DecidableEq, Repr

/-- Result triple of one evaluation: `(shelf_life_percentage, status,
estimated_expiry)` (section 4.1 contract). -/
structure EvalResult where
  shelfLifePercentage : ℚ
  status : Status
  estimatedExpiry : ℚ
  deriving DecidableEq, Repr

/-- Modelled from the spec: the successful output of one evaluation —
percentage by steps 1–3, status by step 4, projected expiry
`added_date + shelf_life_days / (1 + total_penalty)` by step 5
(section 4.1). -/
def evalOutput (prof : DecayProfile) (p : Product)
    (latest : Option SensorReading) (now : ℚ) : EvalResult :=
  { shelfLifePercentage :=
      percentageOf (effectiveFraction
        (elapsedFraction p.addedDate now prof.shelfLifeDays)
        (totalPenalty prof latest))
    status :=
      classifyStatus (percentageOf (effectiveFraction
        (elapsedFraction p.addedDate now prof.shelfLifeDays)
        (totalPenalty prof latest)))
    estimatedExpiry :=
      p.addedDate + prof.shelfLifeDays * secondsPerDay
        / (1 + totalPenalty prof latest) }

/-- Modelled from the spec: **ShelfLifeEvaluator.evaluate** (section 4.1)
— the backend code is not under `src/`.  Resolves the product type to a
decay profile (else `InvalidProductType`), rejects a future `added_date`
(else `InvalidTimestamp`), then computes the percentage, status and
projected expiry by the spec's algorithm steps 1–5.  Pure, no side
effects. -/
def evaluate (profiles : String → Option DecayProfile) (p : Product)
    (latest : Option SensorReading) (now : ℚ) : Except EvalError EvalResult :=
  match profiles p.productType with
  | none => .error .invalidProductType
  | some prof =>
      if now < p.addedDate then .error .invalidTimestamp
      else .ok (evalOutput prof p latest now)

/-- Latest (most recent, i.e. last in the timestamp-ordered, append-only
history) sensor reading of a product. -/
def latestReading (p : Product) : Option SensorReading := p.readings.getLast?

/-- Modelled from the spec: the calling layer's per-product refresh —
recompute the denormalized derived fields via `evaluate`; on error the
product is left unchanged (section 7: errors "leave system state
unchanged (no partial writes)"). -/
def refreshProduct (profiles : String → Option DecayProfile) (now : ℚ)
    (p : Product) : Product :=
  match evaluate profiles p (latestReading p) now with
  | .error _ => p
  | .ok r =>
      { p with shelfLifePercentage := r.shelfLifePercentage
               status := r.status }

/-- Modelled from the spec: append one sensor reading to a product,
updating the denormalized `current_temperature` / `current_humidity`
fields to the new reading's values (sections 3 and 4.2). -/
def appendReading (p : Product) (r : SensorReading) : Product :=
  { p with readings := p.readings ++ [r]
           currentTemperature := some r.temperature
           currentHumidity := some r.humidity }

/-- Modelled from the spec: **SensorSimulator.simulate_reading** applied
to a system state (section 4.2) — appends the generated reading `r` to
the product whose id matches and refreshes its denormalized fields; the
generated reading itself is a parameter (its distribution is a design
choice in the spec). -/
def simulateReading (st : List Product) (targetId : Nat) (r : SensorReading) :
    List Product :=
  st.map (fun p => if p.pid = targetId then appendReading p r else p)

/-- Modelled from the spec: product creation (section 3 lifecycle) — id
assigned, `added_date = now`, zero readings, percentage = 100, status =
fresh; with no readings the current-condition fields are null. -/
def mkProduct (id : Nat) (name ptype batch : String) (qty : ℚ) (unit : String)
    (now : ℚ) : Product :=
  { pid := id, name := name, productType := ptype, batchNumber := batch
    quantity := qty, unit := unit, addedDate := now, readings := []
    currentTemperature := none, currentHumidity := none
    shelfLifePercentage := 100, status := .fresh }

/-- The invariant that the denormalized current-condition fields mirror
the most recent reading if one exists, else are null (spec section 3
invariants). -/
def currentsMirrorLatest (p : Product) : Prop :=
  p.currentTemperature = (latestReading p).map (fun r => r.temperature)
    ∧ p.currentHumidity = (latestReading p).map (fun r => r.humidity)

/-- History ordering predicate: timestamps are non-decreasing along the
reading list (spec: append-only, ordered by timestamp). -/
def orderedByTimestamp (rs : List SensorReading) : Prop :=
  rs.Pairwise (fun a b => a.timestamp ≤ b.timestamp)

namespace Dashboard

/-- The `newProduct` form state of the Dashboard component
(part_000 lines 27–33): all form fields are strings; `unit` starts as
`"L"`, the rest empty. -/
structure NewProduct where
  name : String
  product_type : String
  batch_number : String
  quantity : String
  unit : String
  deriving DecidableEq, Repr

/-- The initial / reset form state (part_000 lines 27–33 and 88–94). -/
def emptyNewProduct : NewProduct :=
  { name := "", product_type := "", batch_number := "", quantity := ""
    unit := "L" }

/-- The slice of Dashboard component state that `handleAddProduct`
touches: the form state and the add-product dialog's open flag. -/
structure DashState where
  newProduct : NewProduct
  isDialogOpen : Bool
  deriving DecidableEq, Repr

/-- The JSON body of the `POST /products` request issued by
`handleAddProduct` (part_000 lines 81–84): the form fields spread, with
`quantity` replaced by `parseFloat(newProduct.quantity)`. -/
structure PostRequest where
  name : String
  product_type : String
  batch_number : String
  quantity : ℚ
  unit : String
  deriving DecidableEq, Repr

/-- Embedded from `handleAddProduct` (part_000 lines 72–100).  JavaScript
`!s` on a string field is true exactly when the string is empty, so the
guard rejects any empty field with no request and no state change.
`parseFloat` is passed in as `pf` (its numeric semantics are outside this
embedding); `postSucceeds` stands for whether the awaited `axios.post`
resolves: on success the dialog is closed and the form reset, on failure
only the error toast fires and the local state is untouched. -/
def handleAddProduct (pf : String → ℚ) (postSucceeds : Bool)
    (st : DashState) : DashState × Option PostRequest :=
  if st.newProduct.name = "" ∨ st.newProduct.product_type = ""
      ∨ st.newProduct.batch_number = "" ∨ st.newProduct.quantity = "" then
    (st, none)
  else
    let req : PostRequest :=
      { name := st.newProduct.name
        product_type := st.newProduct.product_type
        batch_number := st.newProduct.batch_number
        quantity := pf st.newProduct.quantity
        unit := st.newProduct.unit }
    if postSucceeds then
      ({ newProduct := emptyNewProduct, isDialogOpen := false }, some req)
    else (st, some req)

/-- Embedded from Dashboard's `getStatusColor` (part_000 lines 127–140):
a switch over the status string with a gray default. -/
def getStatusColor (status : String) : String :=
  if status = "fresh" then "bg-emerald-500 hover:bg-emerald-600"
  else if status = "good" then "bg-blue-500 hover:bg-blue-600"
  else if status = "warning" then "bg-amber-500 hover:bg-amber-600"
  else if status = "expired" then "bg-red-500 hover:bg-red-600"
  else "bg-gray-500"

/-- Embedded from Dashboard's `getStatusGradient` (part_000 lines
142–155): a switch over the status string with a gray default. -/
def getStatusGradient (status : String) : String :=
  if status = "fresh" then "from-emerald-50 to-teal-50"
  else if status = "good" then "from-blue-50 to-cyan-50"
  else if status = "warning" then "from-amber-50 to-orange-50"
  else if status = "expired" then "from-red-50 to-rose-50"
  else "from-gray-50 to-slate-50"

end Dashboard

namespace ProductDetail

/-- Embedded from ProductDetail's `getStatusColor`
(ProductDetail.jsx lines 64–77): a switch over the status string with a
gray default. -/
def getStatusColor (status : String) : String :=
  if status = "fresh" then "bg-emerald-500"
  else if status = "good" then "bg-blue-500"
  else if status = "warning" then "bg-amber-500"
  else if status = "expired" then "bg-red-500"
  else "bg-gray-500"

end ProductDetail

/-! Concrete instances used to exercise the theorems on explicit
inputs. -/

/-- A concrete decay profile: 10-day shelf life, ideal temperature
0–4 °C, ideal humidity 30–50 %RH. -/
def milkProfile : DecayProfile :=
  { shelfLifeDays := 10, tLo := 0, tHi := 4, hLo := 30, hHi := 50 }

/-- A concrete profile table resolving only the type `"milk"`. -/
def profilesC : String → Option DecayProfile :=
  fun t => if t = "milk" then some milkProfile else none

/-- A concrete product of type `"milk"`, added at time 0. -/
def productC : Product :=
  mkProduct 1 "Fresh Whole Milk" "milk" "BATCH001" 5 "L" 0

/-- A concrete product whose type has no decay profile and whose
`added_date` (100) can lie in the future of the evaluation time. -/
def productUnknownC : Product :=
  mkProduct 2 "Aged Cheddar" "cheese" "BATCH002" 2 "kg" 100

/-- A concrete in-range reading (2 °C, 40 %RH) for `productC`. -/
def readingIn : SensorReading :=
  { rid := 1, productId := 1, temperature := 2, humidity := 40
    timestamp := 86400 }

/-- A concrete reading 5 °C above the ideal maximum (9 °C, 40 %RH). -/
def readingOut : SensorReading :=
  { rid := 2, productId := 1, temperature := 9, humidity := 40
    timestamp := 86400 }

/-- Shelf-life percentage of an evaluation outcome, when it succeeded. -/
def pctOf (e : Except EvalError EvalResult) : Option ℚ :=
  e.toOption.map EvalResult.shelfLifePercentage

/-- A concrete Dashboard state with the pristine (all-empty) form and the
dialog open. -/
def stEmptyC : Dashboard.DashState :=
  { newProduct := Dashboard.emptyNewProduct, isDialogOpen := true }

/-- A concrete Dashboard state with every form field filled in. -/
def stFilledC : Dashboard.DashState :=
  { newProduct :=
      { name := "Fresh Whole Milk", product_type := "milk"
        batch_number := "BATCH001", quantity := "10", unit := "L" }
    isDialogOpen := true }

/-- A concrete stand-in for JavaScript's `parseFloat`. -/
def pfC : String → ℚ := fun _ => 10

/-! ### Helper lemmas -/

theorem deviation_nonneg (x lo hi : ℚ) : 0 ≤ deviation x lo hi :=
  add_nonneg (le_max_left _ _) (le_max_left _ _)

theorem totalPenalty_nonneg (prof : DecayProfile)
    (latest : Option SensorReading) : 0 ≤ totalPenalty prof latest := by
  cases latest with
  | none => simp [totalPenalty]
  | some r =>
      exact add_nonneg
        (mul_nonneg (by norm_num [penaltyPerDegree])
          (deviation_nonneg r.temperature prof.tLo prof.tHi))
        (mul_nonneg (by norm_num [penaltyPerHumidityPoint])
          (deviation_nonneg r.humidity prof.hLo prof.hHi))

theorem elapsedFraction_nonneg (added now days : ℚ) :
    0 ≤ elapsedFraction added now days := le_max_left _ _

theorem effectiveFraction_nonneg (ef pen : ℚ) :
    0 ≤ effectiveFraction ef pen := le_min zero_le_one (le_max_left _ _)

theorem effectiveFraction_le_one (ef pen : ℚ) :
    effectiveFraction ef pen ≤ 1 := min_le_left _ _

theorem percentageOf_nonneg (eff : ℚ) : 0 ≤ percentageOf eff :=
  le_max_left _ _

theorem percentageOf_le_100 (eff : ℚ) (h : 0 ≤ eff) :
    percentageOf eff ≤ 100 :=
  max_le (by norm_num) (by nlinarith)

theorem evaluate_eq_ok_iff (profiles : String → Option DecayProfile)
    (p : Product) (latest : Option SensorReading) (now : ℚ)
    (res : EvalResult) :
    evaluate profiles p latest now = .ok res ↔
      ∃ prof, profiles p.productType = some prof ∧ p.addedDate ≤ now
        ∧ res = evalOutput prof p latest now := by
  unfold evaluate
  cases hpt : profiles p.productType with
  | none => simp
  | some prof =>
      by_cases hlt : now < p.addedDate
      · simp only [if_pos hlt]
        constructor
        · intro h; exact absurd h (by simp)
        · rintro ⟨prof', hp', hle, _⟩
          exact absurd hle (not_le.mpr hlt)
      · simp only [if_neg hlt]
        constructor
        · intro h
          exact ⟨prof, rfl, not_lt.mp hlt, ((Except.ok.injEq _ _).mp h).symm⟩
        · rintro ⟨prof', hp', hle, hres⟩
          obtain rfl := (Option.some.injEq _ _).mp hp'
          rw [hres]

theorem elapsedFraction_mono (added days : ℚ) {n1 n2 : ℚ}
    (h1 : added ≤ n1) (h12 : n1 ≤ n2) :
    elapsedFraction added n1 days ≤ elapsedFraction added n2 days := by
  unfold elapsedFraction
  rcases lt_trichotomy 0 (days * secondsPerDay) with hc | hc | hc
  · exact max_le_max le_rfl ((div_le_div_iff_of_pos_right hc).mpr (by linarith))
  · rw [← hc, div_zero, div_zero]
  · have e1 : (n1 - added) / (days * secondsPerDay) ≤ 0 :=
      div_nonpos_iff.mpr (Or.inl ⟨by linarith, le_of_lt hc⟩)
    have e2 : (n2 - added) / (days * secondsPerDay) ≤ 0 :=
      div_nonpos_iff.mpr (Or.inl ⟨by linarith, le_of_lt hc⟩)
    rw [max_eq_left e1, max_eq_left e2]

theorem evalPct_antitone (added days pen : ℚ) (hpen : 0 ≤ pen) {n1 n2 : ℚ}
    (h1 : added ≤ n1) (h12 : n1 ≤ n2) :
    percentageOf (effectiveFraction (elapsedFraction added n2 days) pen)
      ≤ percentageOf (effectiveFraction (elapsedFraction added n1 days) pen) := by
  have hef := elapsedFraction_mono added days h1 h12
  have heff : effectiveFraction (elapsedFraction added n1 days) pen
      ≤ effectiveFraction (elapsedFraction added n2 days) pen := by
    unfold effectiveFraction
    exact min_le_min le_rfl
      (max_le_max le_rfl (mul_le_mul_of_nonneg_right hef (by linarith)))
  unfold percentageOf
  exact max_le_max le_rfl (by linarith)

theorem evaluate_productC_day1_ok :
    evaluate profilesC productC none 86400
      = .ok (evalOutput milkProfile productC none 86400) := by
  apply (evaluate_eq_ok_iff _ _ _ _ _).mpr
  exact ⟨milkProfile, by simp [profilesC, productC, mkProduct],
    by norm_num [productC, mkProduct], rfl⟩

/-! ### Claims -/

/-- **C1.** For every successful product evaluation, the shelf-life
percentage equals `max 0 (100 * (1 - effective))` where `effective` is
`elapsed_fraction * (1 + total_penalty)` clamped to `[0, 1]`, and the
returned percentage always lies in `[0, 100]`. -/
theorem evaluate_percentage_formula_and_range
    (profiles : String → Option DecayProfile) (p : Product)
    (latest : Option SensorReading) (now : ℚ) (prof : DecayProfile)
    (res : EvalResult)
    (hprof : profiles p.productType = some prof)
    (hok : evaluate profiles p latest now = .ok res) :
    res.shelfLifePercentage =
        max 0 (100 * (1 - min 1 (max 0
          (elapsedFraction p.addedDate now prof.shelfLifeDays
            * (1 + totalPenalty prof latest)))))
      ∧ 0 ≤ res.shelfLifePercentage ∧ res.shelfLifePercentage ≤ 100 := by
  obtain ⟨prof', hprof', hle, hres⟩ := (evaluate_eq_ok_iff _ _ _ _ _).mp hok
  rw [hprof] at hprof'
  obtain rfl := (Option.some.injEq _ _).mp hprof'
  subst hres
  exact ⟨rfl, percentageOf_nonneg _,
    percentageOf_le_100 _ (effectiveFraction_nonneg _ _)⟩

/-- Witness for C1 at a concrete input: the milk product one day after
creation, with no reading. -/
theorem evaluate_percentage_formula_and_range_witness :
    0 ≤ (evalOutput milkProfile productC none 86400).shelfLifePercentage
      ∧ (evalOutput milkProfile productC none 86400).shelfLifePercentage
          ≤ 100 :=
  (evaluate_percentage_formula_and_range profilesC productC none 86400
    milkProfile _ (by simp [profilesC, productC, mkProduct])
    evaluate_productC_day1_ok).2

/-- **C2.** The status classification is a pure function of the
shelf-life percentage with ordered, non-overlapping thresholds:
`>= 70` fresh, `[40, 70)` good, `(0, 40)` warning, `<= 0` expired; being
a total function into the four constructors with these characterizing
intervals, the buckets are exhaustive and non-overlapping over the whole
percentage domain, and every successful evaluation's status is exactly
the classification of its own percentage. -/
theorem classifyStatus_buckets_and_purity :
    (∀ q : ℚ,
      (classifyStatus q = Status.fresh ↔ 70 ≤ q)
        ∧ (classifyStatus q = Status.good ↔ 40 ≤ q ∧ q < 70)
        ∧ (classifyStatus q = Status.warning ↔ 0 < q ∧ q < 40)
        ∧ (classifyStatus q = Status.expired ↔ q ≤ 0))
    ∧ ∀ (profiles : String → Option DecayProfile) (p : Product)
        (latest : Option SensorReading) (now : ℚ) (res : EvalResult),
        evaluate profiles p latest now = .ok res →
          res.status = classifyStatus res.shelfLifePercentage := by
  constructor
  · intro q
    refine ⟨?_, ?_, ?_, ?_⟩ <;> unfold classifyStatus <;>
      split_ifs <;> simp_all <;> intros <;> linarith
  · intro profiles p latest now res hok
    obtain ⟨prof, _, _, rfl⟩ := (evaluate_eq_ok_iff _ _ _ _ _).mp hok
    rfl

/-- Witness for C2 at concrete inputs: 85 % classifies as fresh, and the
concrete day-one evaluation's status equals the classification of its
percentage. -/
theorem classifyStatus_buckets_and_purity_witness :
    classifyStatus 85 = Status.fresh
      ∧ (evalOutput milkProfile productC none 86400).status
          = classifyStatus
              (evalOutput milkProfile productC none 86400).shelfLifePercentage :=
  ⟨(classifyStatus_buckets_and_purity.1 85).1.mpr (by norm_num),
   classifyStatus_buckets_and_purity.2 profilesC productC none 86400 _
     evaluate_productC_day1_ok⟩

/-- **C3.** For a fixed product, profile table and latest reading, and
times `now1 ≤ now2` at which evaluation succeeds (hence both at or after
`added_date`), the percentage returned at `now2` is at most the
percentage returned at `now1`: the shelf-life percentage is
non-increasing as `now` advances with fixed readings. -/
theorem evaluate_percentage_antitone_in_now
    (profiles : String → Option DecayProfile) (p : Product)
    (latest : Option SensorReading) (now1 now2 : ℚ)
    (res1 res2 : EvalResult)
    (h1 : evaluate profiles p latest now1 = .ok res1)
    (h2 : evaluate profiles p latest now2 = .ok res2)
    (h12 : now1 ≤ now2) :
    res2.shelfLifePercentage ≤ res1.shelfLifePercentage := by
  obtain ⟨prof, hprof, hle1, hres1⟩ := (evaluate_eq_ok_iff _ _ _ _ _).mp h1
  obtain ⟨prof', hprof', hle2, hres2⟩ := (evaluate_eq_ok_iff _ _ _ _ _).mp h2
  rw [hprof] at hprof'
  obtain rfl := (Option.some.injEq _ _).mp hprof'
  subst hres1; subst hres2
  exact evalPct_antitone p.addedDate prof.shelfLifeDays
    (totalPenalty prof latest) (totalPenalty_nonneg prof latest) hle1 h12

/-- Witness for C3 at concrete inputs: the milk product evaluated at day
one and day two. -/
theorem evaluate_percentage_antitone_in_now_witness :
    (evalOutput milkProfile productC none 172800).shelfLifePercentage
      ≤ (evalOutput milkProfile productC none 86400).shelfLifePercentage :=
  evaluate_percentage_antitone_in_now profilesC productC none 86400 172800
    _ _ evaluate_productC_day1_ok
    ((evaluate_eq_ok_iff _ _ _ _ _).mpr ⟨milkProfile,
      by simp [profilesC, productC, mkProduct],
      by norm_num [productC, mkProduct], rfl⟩)
    (by norm_num)

theorem deviation_eq_zero_of_in (x lo hi : ℚ) (hlo : lo ≤ x) (hhi : x ≤ hi) :
    deviation x lo hi = 0 := by
  unfold deviation
  rw [max_eq_left (by linarith), max_eq_left (by linarith)]
  ring

theorem deviation_pos_of_out (x lo hi : ℚ) (h : x < lo ∨ hi < x) :
    0 < deviation x lo hi := by
  unfold deviation
  have h1 : (0:ℚ) ≤ max 0 (lo - x) := le_max_left _ _
  have h2 : (0:ℚ) ≤ max 0 (x - hi) := le_max_left _ _
  rcases h with h | h
  · have h3 : lo - x ≤ max 0 (lo - x) := le_max_right _ _
    linarith
  · have h3 : x - hi ≤ max 0 (x - hi) := le_max_right _ _
    linarith

theorem totalPenalty_in_range_zero (prof : DecayProfile) (r : SensorReading)
    (h1 : prof.tLo ≤ r.temperature) (h2 : r.temperature ≤ prof.tHi)
    (h3 : prof.hLo ≤ r.humidity) (h4 : r.humidity ≤ prof.hHi) :
    totalPenalty prof (some r) = 0 := by
  simp [totalPenalty, deviation_eq_zero_of_in _ _ _ h1 h2,
    deviation_eq_zero_of_in _ _ _ h3 h4]

theorem totalPenalty_pos_of_temp_out (prof : DecayProfile)
    (r : SensorReading)
    (h : r.temperature < prof.tLo ∨ prof.tHi < r.temperature) :
    0 < totalPenalty prof (some r) := by
  have hT := deviation_pos_of_out r.temperature prof.tLo prof.tHi h
  have hH := deviation_nonneg r.humidity prof.hLo prof.hHi
  simp only [totalPenalty]
  have e1 : 0 < penaltyPerDegree * deviation r.temperature prof.tLo prof.tHi :=
    mul_pos (by norm_num [penaltyPerDegree]) hT
  have e2 : 0 ≤ penaltyPerHumidityPoint
      * deviation r.humidity prof.hLo prof.hHi :=
    mul_nonneg (by norm_num [penaltyPerHumidityPoint]) hH
  linarith

theorem pct_strict_lt_of_penalty (added now days pen : ℚ)
    (hd : 0 < days) (h1 : added < now)
    (h2 : now - added < days * secondsPerDay) (hpen : 0 < pen) :
    percentageOf (effectiveFraction (elapsedFraction added now days) pen)
      < percentageOf (effectiveFraction (elapsedFraction added now days) 0) := by
  have hc : 0 < days * secondsPerDay :=
    mul_pos hd (by norm_num [secondsPerDay])
  have hef_eq : elapsedFraction added now days
      = (now - added) / (days * secondsPerDay) :=
    max_eq_right (div_nonneg (by linarith) (le_of_lt hc))
  set ef := elapsedFraction added now days with hef
  have hef_pos : 0 < ef := by
    rw [hef_eq]; exact div_pos (by linarith) hc
  have hef_lt1 : ef < 1 := by
    rw [hef_eq, div_lt_one hc]; linarith
  have hin : effectiveFraction ef 0 = ef := by
    unfold effectiveFraction
    rw [add_zero, mul_one, max_eq_right (le_of_lt hef_pos),
      min_eq_right (le_of_lt hef_lt1)]
  have hpct_in : percentageOf (effectiveFraction ef 0) = 100 * (1 - ef) := by
    rw [hin]; unfold percentageOf
    rw [max_eq_right (by nlinarith)]
  have heff_out : ef < effectiveFraction ef pen := by
    unfold effectiveFraction
    rw [max_eq_right (by nlinarith)]
    rcases le_or_lt 1 (ef * (1 + pen)) with h | h
    · rw [min_eq_left h]; exact hef_lt1
    · rw [min_eq_right (le_of_lt h)]; nlinarith
  rw [hpct_in]
  unfold percentageOf
  exact max_lt (by nlinarith) (by nlinarith)

/-- **C4 (counterexample to the claim as stated).** At zero elapsed time
(`now = added_date`), evaluating the concrete milk product with a reading
5 °C above the ideal maximum yields the same percentage (100) as with an
in-range reading, so an out-of-range temperature does not yield a
strictly smaller percentage at *every* elapsed time. -/
theorem evaluate_out_of_range_no_strict_drop_at_zero :
    pctOf (evaluate profilesC productC (some readingOut) 0) = some 100
      ∧ pctOf (evaluate profilesC productC (some readingIn) 0) = some 100 := by
  have h1 : evaluate profilesC productC (some readingOut) 0
      = .ok (evalOutput milkProfile productC (some readingOut) 0) :=
    (evaluate_eq_ok_iff _ _ _ _ _).mpr ⟨milkProfile,
      by simp [profilesC, productC, mkProduct],
      by norm_num [productC, mkProduct], rfl⟩
  have h2 : evaluate profilesC productC (some readingIn) 0
      = .ok (evalOutput milkProfile productC (some readingIn) 0) :=
    (evaluate_eq_ok_iff _ _ _ _ _).mpr ⟨milkProfile,
      by simp [profilesC, productC, mkProduct],
      by norm_num [productC, mkProduct], rfl⟩
  constructor <;> [rw [pctOf, h1]; rw [pctOf, h2]] <;>
    simp [Except.toOption, evalOutput, elapsedFraction, effectiveFraction,
      percentageOf, productC, mkProduct, secondsPerDay, max_def, min_def]

/-- **C4 (amended).** With a positive nominal shelf life and an elapsed
time strictly between zero and the full shelf life, evaluating with a
latest reading whose temperature is outside the ideal range yields a
strictly smaller shelf-life percentage than evaluating at the same
elapsed time with a fully in-range reading; moreover the condition
penalty is monotonic in the deviation magnitudes and zero whenever
temperature and humidity are in range.  (At zero elapsed time, or once
both evaluations have hit zero, the comparison is only non-strict.) -/
theorem evaluate_out_of_range_strictly_decreases
    (profiles : String → Option DecayProfile) (p : Product)
    (prof : DecayProfile) (rOut rIn : SensorReading) (now : ℚ)
    (hprof : profiles p.productType = some prof)
    (hdays : 0 < prof.shelfLifeDays)
    (hnow1 : p.addedDate < now)
    (hnow2 : now - p.addedDate < prof.shelfLifeDays * secondsPerDay)
    (hout : rOut.temperature < prof.tLo ∨ prof.tHi < rOut.temperature)
    (hin1 : prof.tLo ≤ rIn.temperature) (hin2 : rIn.temperature ≤ prof.tHi)
    (hin3 : prof.hLo ≤ rIn.humidity) (hin4 : rIn.humidity ≤ prof.hHi) :
    evaluate profiles p (some rOut) now
        = .ok (evalOutput prof p (some rOut) now)
      ∧ evaluate profiles p (some rIn) now
          = .ok (evalOutput prof p (some rIn) now)
      ∧ (evalOutput prof p (some rOut) now).shelfLifePercentage
          < (evalOutput prof p (some rIn) now).shelfLifePercentage
      ∧ (∀ r1 r2 : SensorReading,
          deviation r1.temperature prof.tLo prof.tHi
              ≤ deviation r2.temperature prof.tLo prof.tHi →
            deviation r1.humidity prof.hLo prof.hHi
                ≤ deviation r2.humidity prof.hLo prof.hHi →
              totalPenalty prof (some r1) ≤ totalPenalty prof (some r2))
      ∧ (∀ r : SensorReading, prof.tLo ≤ r.temperature →
          r.temperature ≤ prof.tHi → prof.hLo ≤ r.humidity →
            r.humidity ≤ prof.hHi → totalPenalty prof (some r) = 0) := by
  refine ⟨(evaluate_eq_ok_iff _ _ _ _ _).mpr
      ⟨prof, hprof, le_of_lt hnow1, rfl⟩,
    (evaluate_eq_ok_iff _ _ _ _ _).mpr
      ⟨prof, hprof, le_of_lt hnow1, rfl⟩, ?_, ?_, ?_⟩
  · show percentageOf _ < percentageOf _
    rw [totalPenalty_in_range_zero prof rIn hin1 hin2 hin3 hin4]
    exact pct_strict_lt_of_penalty p.addedDate now prof.shelfLifeDays _
      hdays hnow1 hnow2 (totalPenalty_pos_of_temp_out prof rOut hout)
  · intro r1 r2 hT hH
    simp only [totalPenalty]
    exact add_le_add
      (mul_le_mul_of_nonneg_left hT (by norm_num [penaltyPerDegree]))
      (mul_le_mul_of_nonneg_left hH (by norm_num [penaltyPerHumidityPoint]))
  · intro r e1 e2 e3 e4
    exact totalPenalty_in_range_zero prof r e1 e2 e3 e4

/-- Witness for the amended C4 at concrete inputs: the milk product at
day five, comparing the 9 °C reading against the in-range 2 °C reading. -/
theorem evaluate_out_of_range_strictly_decreases_witness :
    (evalOutput milkProfile productC (some readingOut) 432000).shelfLifePercentage
      < (evalOutput milkProfile productC (some readingIn) 432000).shelfLifePercentage :=
  (evaluate_out_of_range_strictly_decreases profilesC productC milkProfile
    readingOut readingIn 432000
    (by simp [profilesC, productC, mkProduct])
    (by norm_num [milkProfile])
    (by norm_num [productC, mkProduct])
    (by norm_num [productC, mkProduct, milkProfile, secondsPerDay])
    (Or.inr (by norm_num [milkProfile, readingOut]))
    (by norm_num [milkProfile, readingIn])
    (by norm_num [milkProfile, readingIn])
    (by norm_num [milkProfile, readingIn])
    (by norm_num [milkProfile, readingIn])).2.2.1

/-- **C5.** For every evaluation with zero condition penalty (in-range or
absent latest reading) where the elapsed time reaches the full nominal
shelf life (`elapsed_fraction ≥ 1`), `evaluate` succeeds with shelf-life
percentage 0 and status expired. -/
theorem evaluate_expired_at_full_elapsed
    (profiles : String → Option DecayProfile) (p : Product)
    (latest : Option SensorReading) (now : ℚ) (prof : DecayProfile)
    (hprof : profiles p.productType = some prof)
    (hdays : 0 < prof.shelfLifeDays)
    (hpen : totalPenalty prof latest = 0)
    (hfull : prof.shelfLifeDays * secondsPerDay ≤ now - p.addedDate) :
    evaluate profiles p latest now = .ok (evalOutput prof p latest now)
      ∧ (evalOutput prof p latest now).shelfLifePercentage = 0
      ∧ (evalOutput prof p latest now).status = Status.expired := by
  have hc : 0 < prof.shelfLifeDays * secondsPerDay :=
    mul_pos hdays (by norm_num [secondsPerDay])
  have hle : p.addedDate ≤ now := by nlinarith
  have hef : 1 ≤ elapsedFraction p.addedDate now prof.shelfLifeDays := by
    unfold elapsedFraction
    exact le_trans ((one_le_div hc).mpr hfull) (le_max_right _ _)
  have hraw : percentageOf (effectiveFraction
      (elapsedFraction p.addedDate now prof.shelfLifeDays)
      (totalPenalty prof latest)) = 0 := by
    rw [hpen]
    unfold effectiveFraction
    rw [add_zero, mul_one, max_eq_right (le_trans zero_le_one hef),
      min_eq_left hef]
    unfold percentageOf
    norm_num
  refine ⟨(evaluate_eq_ok_iff _ _ _ _ _).mpr ⟨prof, hprof, hle, rfl⟩, hraw, ?_⟩
  show classifyStatus (percentageOf _) = Status.expired
  rw [hraw]
  norm_num [classifyStatus]

/-- Witness for C5: the spec's scenario — the milk product (shelf life 10
days, added at time 0) evaluated exactly 10 days later with an in-range
reading: percentage 0 and status expired. -/
theorem evaluate_expired_at_full_elapsed_witness :
    (evalOutput milkProfile productC (some readingIn) 864000).shelfLifePercentage = 0
      ∧ (evalOutput milkProfile productC (some readingIn) 864000).status
          = Status.expired :=
  (evaluate_expired_at_full_elapsed profilesC productC (some readingIn)
    864000 milkProfile
    (by simp [profilesC, productC, mkProduct])
    (by norm_num [milkProfile])
    (totalPenalty_in_range_zero milkProfile readingIn
      (by norm_num [milkProfile, readingIn]) (by norm_num [milkProfile, readingIn])
      (by norm_num [milkProfile, readingIn]) (by norm_num [milkProfile, readingIn]))
    (by norm_num [milkProfile, productC, mkProduct, secondsPerDay])).2

/-- **C6 (counterexample to the claim as stated).** For the concrete
product whose type has no decay profile *and* whose `added_date` (100)
lies strictly in the future of `now = 0`, `evaluate` fails with
`InvalidProductType`, not `InvalidTimestamp` — so "fails with
InvalidTimestamp exactly when added_date is in the future" does not hold
when both error conditions apply at once. -/
theorem evaluate_error_precedence_counterexample :
    (0:ℚ) < productUnknownC.addedDate
      ∧ evaluate profilesC productUnknownC none 0
          = .error .invalidProductType
      ∧ evaluate profilesC productUnknownC none 0
          ≠ .error .invalidTimestamp := by
  have h : evaluate profilesC productUnknownC none 0
      = .error .invalidProductType := by
    simp [evaluate, profilesC, productUnknownC, mkProduct]
  refine ⟨by norm_num [productUnknownC, mkProduct], h, ?_⟩
  rw [h]
  simp

/-- **C6 (amended).** `evaluate` fails with `InvalidProductType` exactly
when the product type has no matching decay profile; it fails with
`InvalidTimestamp` exactly when a profile exists *and* `added_date` is
strictly in the future of `now` (the product-type check takes
precedence when both conditions hold); and on every error the refresh
step leaves the product — hence the system state — unchanged (no partial
writes). -/
theorem evaluate_error_characterization
    (profiles : String → Option DecayProfile) (p : Product)
    (latest : Option SensorReading) (now : ℚ) :
    (evaluate profiles p latest now = .error .invalidProductType
        ↔ profiles p.productType = none)
      ∧ (evaluate profiles p latest now = .error .invalidTimestamp
          ↔ (∃ prof, profiles p.productType = some prof)
              ∧ now < p.addedDate)
      ∧ ∀ e, evaluate profiles p (latestReading p) now = .error e →
          refreshProduct profiles now p = p := by
  have h3 : ∀ e, evaluate profiles p (latestReading p) now = .error e →
      refreshProduct profiles now p = p := by
    intro e he
    unfold refreshProduct
    rw [he]
  refine ⟨?_, ?_, h3⟩ <;>
    · cases hpt : profiles p.productType with
      | none => simp [evaluate, hpt]
      | some prof =>
          by_cases hlt : now < p.addedDate <;> simp [evaluate, hpt, hlt]

/-- Witness for the amended C6 at concrete inputs: the unknown-type
product fails with `InvalidProductType` and its refresh is a no-op, and
the milk product evaluated before its `added_date` fails with
`InvalidTimestamp`. -/
theorem evaluate_error_characterization_witness :
    evaluate profilesC productUnknownC none 0 = .error .invalidProductType
      ∧ refreshProduct profilesC 0 productUnknownC = productUnknownC
      ∧ evaluate profilesC productC none (-1) = .error .invalidTimestamp :=
  ⟨(evaluate_error_characterization profilesC productUnknownC none 0).1.mpr
      (by simp [profilesC, productUnknownC, mkProduct]),
   (evaluate_error_characterization profilesC productUnknownC none 0).2.2
      .invalidProductType
      (by simp [evaluate, profilesC, productUnknownC, mkProduct, latestReading]),
   (evaluate_error_characterization profilesC productC none (-1)).2.1.mpr
      ⟨⟨milkProfile, by simp [profilesC, productC, mkProduct]⟩,
       by norm_num [productC, mkProduct]⟩⟩

/-- **C7.** For every product in the state with the targeted id,
`simulate_reading` puts exactly the one-reading extension of that product
into the new state: the history grows by exactly the new reading (so it
stays append-only, and stays ordered whenever the new timestamp is not
earlier than the existing ones), the denormalized current temperature and
humidity equal the new reading's values afterwards, and a product with no
readings (under the mirroring invariant, as at creation) has null current
temperature and humidity. -/
theorem simulateReading_appends_one
    (st : List Product) (p : Product) (r : SensorReading)
    (hmem : p ∈ st) :
    appendReading p r ∈ simulateReading st p.pid r
      ∧ (appendReading p r).readings = p.readings ++ [r]
      ∧ (appendReading p r).readings.length = p.readings.length + 1
      ∧ (appendReading p r).currentTemperature = some r.temperature
      ∧ (appendReading p r).currentHumidity = some r.humidity
      ∧ currentsMirrorLatest (appendReading p r)
      ∧ (orderedByTimestamp p.readings →
          (∀ x ∈ p.readings, x.timestamp ≤ r.timestamp) →
            orderedByTimestamp (appendReading p r).readings)
      ∧ (p.readings = [] → currentsMirrorLatest p →
          p.currentTemperature = none ∧ p.currentHumidity = none) := by
  refine ⟨?_, rfl, by simp [appendReading], rfl, rfl, ?_, ?_, ?_⟩
  · have hmap := List.mem_map_of_mem
      (fun q => if q.pid = p.pid then appendReading q r else q) hmem
    simpa [simulateReading] using hmap
  · constructor <;>
      simp [currentsMirrorLatest, latestReading, appendReading]
  · intro hord hall
    simp only [orderedByTimestamp, appendReading, List.pairwise_append]
    exact ⟨hord, List.pairwise_singleton _ _,
      fun x hx y hy => by simp at hy; rw [hy]; exact hall x hx⟩
  · intro he hm
    obtain ⟨h1, h2⟩ := hm
    rw [latestReading, he] at h1 h2
    simp at h1 h2
    exact ⟨h1, h2⟩

/-- Witness for C7 at concrete inputs: simulating the in-range reading on
the freshly created milk product. -/
theorem simulateReading_appends_one_witness :
    (appendReading productC readingIn).readings
        = productC.readings ++ [readingIn]
      ∧ (appendReading productC readingIn).currentTemperature
          = some readingIn.temperature
      ∧ (appendReading productC readingIn).currentHumidity
          = some readingIn.humidity :=
  ⟨(simulateReading_appends_one [productC] productC readingIn
      (by simp)).2.1,
   (simulateReading_appends_one [productC] productC readingIn
      (by simp)).2.2.2.1,
   (simulateReading_appends_one [productC] productC readingIn
      (by simp)).2.2.2.2.1⟩

/-- **C8.** Every successful evaluation computes the estimated expiry as
`added_date + shelf_life_days / (1 + total_penalty)` (in seconds,
recomputed from the current penalty on each evaluation rather than
cached), and with zero penalty (in-range conditions) this reduces to
`added_date + shelf_life_days`. -/
theorem evaluate_estimated_expiry
    (profiles : String → Option DecayProfile) (p : Product)
    (latest : Option SensorReading) (now : ℚ) (prof : DecayProfile)
    (res : EvalResult)
    (hprof : profiles p.productType = some prof)
    (hok : evaluate profiles p latest now = .ok res) :
    res.estimatedExpiry = p.addedDate
        + prof.shelfLifeDays * secondsPerDay / (1 + totalPenalty prof latest)
      ∧ (totalPenalty prof latest = 0 →
          res.estimatedExpiry
            = p.addedDate + prof.shelfLifeDays * secondsPerDay) := by
  obtain ⟨prof', hprof', hle, rfl⟩ := (evaluate_eq_ok_iff _ _ _ _ _).mp hok
  rw [hprof] at hprof'
  obtain rfl := (Option.some.injEq _ _).mp hprof'
  refine ⟨rfl, fun h0 => ?_⟩
  show p.addedDate + prof.shelfLifeDays * secondsPerDay
      / (1 + totalPenalty prof latest)
    = p.addedDate + prof.shelfLifeDays * secondsPerDay
  rw [h0]
  norm_num

/-- Witness for C8: the milk product at day one with no reading — zero
penalty, so the projected expiry is `added_date` plus the nominal shelf
life in seconds. -/
theorem evaluate_estimated_expiry_witness :
    (evalOutput milkProfile productC none 86400).estimatedExpiry
      = productC.addedDate + milkProfile.shelfLifeDays * secondsPerDay :=
  (evaluate_estimated_expiry profilesC productC none 86400 milkProfile _
    (by simp [profilesC, productC, mkProduct])
    evaluate_productC_day1_ok).2 (by simp [totalPenalty])

/-- **C9.** In the Dashboard's add-product handler, whenever at least one
of `name`, `product_type`, `batch_number`, `quantity` is the empty
string, no POST request is performed and the form state and dialog flag
are left unchanged; a POST to `/products` is issued exactly when all four
fields are non-empty, and then its body carries the form fields with
`quantity` converted by `parseFloat`. -/
theorem handleAddProduct_validation
    (pf : String → ℚ) (ok : Bool) (st : Dashboard.DashState) :
    ((st.newProduct.name = "" ∨ st.newProduct.product_type = ""
        ∨ st.newProduct.batch_number = "" ∨ st.newProduct.quantity = "") →
      Dashboard.handleAddProduct pf ok st = (st, none))
    ∧ ((Dashboard.handleAddProduct pf ok st).2 ≠ none ↔
        st.newProduct.name ≠ "" ∧ st.newProduct.product_type ≠ ""
          ∧ st.newProduct.batch_number ≠ "" ∧ st.newProduct.quantity ≠ "")
    ∧ (st.newProduct.name ≠ "" → st.newProduct.product_type ≠ "" →
        st.newProduct.batch_number ≠ "" → st.newProduct.quantity ≠ "" →
        (Dashboard.handleAddProduct pf ok st).2 = some
          { name := st.newProduct.name
            product_type := st.newProduct.product_type
            batch_number := st.newProduct.batch_number
            quantity := pf st.newProduct.quantity
            unit := st.newProduct.unit }) := by
  by_cases h : st.newProduct.name = "" ∨ st.newProduct.product_type = ""
      ∨ st.newProduct.batch_number = "" ∨ st.newProduct.quantity = ""
  · refine ⟨fun _ => by simp [Dashboard.handleAddProduct, h], ?_, ?_⟩
    · simp only [Dashboard.handleAddProduct, if_pos h, ne_eq,
        not_true_eq_false, iff_false]
      tauto
    · intro h1 h2 h3 h4
      tauto
  · refine ⟨fun hc => absurd hc h, ?_, fun _ _ _ _ => ?_⟩
    · simp only [Dashboard.handleAddProduct, if_neg h]
      push_neg at h
      cases ok <;> simp [h]
    · simp only [Dashboard.handleAddProduct, if_neg h]
      cases ok <;> simp

/-- Witness for C9 at concrete inputs: the pristine form submits nothing
and changes nothing; the fully filled form issues the POST with the
parsed quantity. -/
theorem handleAddProduct_validation_witness :
    Dashboard.handleAddProduct pfC true stEmptyC = (stEmptyC, none)
      ∧ (Dashboard.handleAddProduct pfC true stFilledC).2 = some
          { name := "Fresh Whole Milk", product_type := "milk"
            batch_number := "BATCH001", quantity := pfC "10", unit := "L" } :=
  ⟨(handleAddProduct_validation pfC true stEmptyC).1
      (Or.inl (by simp [stEmptyC, Dashboard.emptyNewProduct])),
   (handleAddProduct_validation pfC true stFilledC).2.2
      (by simp [stFilledC]) (by simp [stFilledC])
      (by simp [stFilledC]) (by simp [stFilledC])⟩

/-- **C10.** The status-to-style helpers are total over all status
strings: for every status outside {fresh, good, warning, expired},
Dashboard's `getStatusColor` and `getStatusGradient` and ProductDetail's
`getStatusColor` all return their gray default class, so rendering never
fails on an unknown status value. -/
theorem status_style_helpers_default
    (s : String) (h1 : s ≠ "fresh") (h2 : s ≠ "good")
    (h3 : s ≠ "warning") (h4 : s ≠ "expired") :
    Dashboard.getStatusColor s = "bg-gray-500"
      ∧ Dashboard.getStatusGradient s = "from-gray-50 to-slate-50"
      ∧ ProductDetail.getStatusColor s = "bg-gray-500" := by
  refine ⟨?_, ?_, ?_⟩ <;>
    simp [Dashboard.getStatusColor, Dashboard.getStatusGradient,
      ProductDetail.getStatusColor, h1, h2, h3, h4]

/-- Witness for C10 at a concrete input: the unknown status string
`"stale"` maps to the gray defaults in all three helpers. -/
theorem status_style_helpers_default_witness :
    Dashboard.getStatusColor "stale" = "bg-gray-500"
      ∧ Dashboard.getStatusGradient "stale" = "from-gray-50 to-slate-50"
      ∧ ProductDetail.getStatusColor "stale" = "bg-gray-500" :=
  status_style_helpers_default "stale" (by simp) (by simp) (by simp)
    (by simp)

end MilkLife
